import Mathlib

/-!
Formal model of the dm-rust repository's Python example clients and of its
LRC (longitudinal redundancy check) checksum utility, embedded shallowly:
pure functions of the scripts become Lean functions, the HTTP transport
becomes an explicit outcome value passed to the client functions, and byte
arithmetic is carried out on `Nat` with explicit `% 256`.
-/

/- ========================================================================
   Part 1: the LRC checksum utility, from `test_lrc.py`.
   ======================================================================== -/

/-- Hexadecimal value of one character, as Python's `int(c, 16)` computes it
for the digit characters actually used (0-9, a-f, A-F); any other character
is mapped to 0 here (Python would raise, but the fixture string is all hex). -/
def hexVal (c : Char) : Nat :=
  if '0' ≤ c ∧ c ≤ '9' then c.toNat - '0'.toNat
  else if 'a' ≤ c ∧ c ≤ 'f' then c.toNat - 'a'.toNat + 10
  else if 'A' ≤ c ∧ c ≤ 'F' then c.toNat - 'A'.toNat + 10
  else 0

/-- Split a character list into two-character groups and read each group as a
hexadecimal byte, mirroring
`[int(data[i:i+2], 16) for i in range(0, len(data), 2)]`; a trailing single
character (odd-length string) is read alone, as Python's slice would yield. -/
def bytePairs : List Char → List Nat
  | c1 :: c2 :: rest => (hexVal c1 * 16 + hexVal c2) :: bytePairs rest
  | [c] => [hexVal c]
  | [] => []

/-- Byte list obtained from a hexadecimal string. -/
def bytesFromHex (s : String) : List Nat := bytePairs s.data

/-- The fixture hex string named `data` in `test_lrc.py`. -/
def testData : String := "00100B00001001"

/-- The `bytes_list` built in `test_lrc.py` from the fixture string. -/
def bytes_list : List Nat := bytesFromHex testData

/-- `sum_val = sum(bytes_list) & 0xFF`: the low 8 bits of the byte sum. -/
def sum_val (bs : List Nat) : Nat := bs.sum % 256

/-- `lrc = (256 - sum_val) & 0xFF`: the subtract-from-256 formulation. -/
def lrc (bs : List Nat) : Nat := (256 - sum_val bs) % 256

/-- `lrc2 = ((0xFF - sum_val) + 1) & 0xFF`: one's-complement-plus-one. -/
def lrc2 (bs : List Nat) : Nat := ((0xFF - sum_val bs) + 1) % 256

/-- Claim C1: for every byte sequence, the LRC computed by the
subtract-from-256 formula equals the LRC computed by the
one's-complement-plus-one formula. -/
theorem lrc_formulations_agree (bs : List Nat) : lrc bs = lrc2 bs := by
  unfold lrc lrc2 sum_val
  omega

/-- Claim C2: for every byte sequence, the LRC plus the byte sum is congruent
to 0 modulo 256, i.e. the LRC is the two's-complement of the modulo-256 sum. -/
theorem lrc_sum_congruence (bs : List Nat) : (lrc bs + bs.sum) % 256 = 0 := by
  unfold lrc sum_val
  omega

/-- Claim C3: the LRC computation is total by construction, always returns a
single byte in 0..255, and returns 0 on the empty sequence. -/
theorem lrc_total_and_empty : (∀ bs : List Nat, lrc bs ≤ 255) ∧ lrc [] = 0 := by
  constructor
  · intro bs; unfold lrc; omega
  · rfl

/-- Claim C4 counterexample: the six-byte sequence
[0x00, 0x10, 0x0B, 0x00, 0x00, 0x10] named by the claim does not have
modulo-256 sum 0x2C and its LRC is not 0xD4 (they are 0x2B and 0xD5). -/
theorem lrc_fixture_claim_false :
    ¬ (sum_val [0x00, 0x10, 0x0B, 0x00, 0x00, 0x10] = 0x2C ∧
       lrc [0x00, 0x10, 0x0B, 0x00, 0x00, 0x10] = 0xD4) := by decide

/-- Claim C4 amended: the byte list `test_lrc.py` actually builds from the
hex string "00100B00001001" is the seven-byte list
[0x00, 0x10, 0x0B, 0x00, 0x00, 0x10, 0x01] (the claim omitted the trailing
0x01 byte); its modulo-256 sum is 0x2C and its LRC is 0xD4. -/
theorem lrc_fixture_amended :
    bytes_list = [0x00, 0x10, 0x0B, 0x00, 0x00, 0x10, 0x01] ∧
    sum_val bytes_list = 0x2C ∧ lrc bytes_list = 0xD4 := by decide

/- ========================================================================
   Part 2: the batch-read client, from `examples/batch_read_demo.py`.

   JSON values carried by the gateway are modelled by `JVal` (numbers are
   rationals, since the claims under scrutiny concern which value the client
   returns, not floating-point rounding).  The `requests.post` round trip is
   modelled by a `transport` function from the request's item list to an
   outcome: `failure e` stands for any `requests.exceptions.RequestException`
   (timeout, connection error, or the `raise_for_status` on a non-2xx
   status), with `e` the exception's text; `success resp` stands for a 2xx
   response whose parsed JSON body is `resp`.
   ======================================================================== -/

/-- JSON-native values exchanged with the gateway. -/
inductive JVal where
  | num (q : ℚ)
  | bool (b : Bool)
  | str (s : String)
  | null
deriving DecidableEq, Repr

/-- One read item as the demo passes it: name, channel, address, type tag,
and the demo's optional per-item fields `scale` and `unit`
(`demo_data_processing` keeps them beside the wire fields). -/
structure ReadItem where
  name : String
  channel_id : Int
  addr : Nat
  type : String
  scale : ℚ := 1
  unit : String := ""
deriving DecidableEq, Repr

/-- One per-item entry of the gateway's `data` array.  `value` is the result
of `item.get("value")` (so `null` when the key is absent) and `error` the
result of `item.get("error", ...)` with empty string for absent. -/
structure RespItem where
  name : String
  success : Bool
  value : JVal := JVal.null
  error : String := ""
deriving DecidableEq, Repr

/-- The gateway's parsed JSON body: `{"state", "message", "data"}`. -/
structure BatchResponse where
  state : Int
  message : String
  data : List RespItem
deriving DecidableEq, Repr

/-- Outcome of the HTTP round trip performed inside `batch_read`. -/
inductive TransportOutcome where
  | failure (err : String)
  | success (resp : BatchResponse)
deriving DecidableEq, Repr

/-- `DeviceClient.batch_read`: posts the items and returns the parsed JSON
body on success; any `RequestException` is caught and replaced by the
structured result `{"state": -1, "message": "请求失败: ...", "data": []}`. -/
def DeviceClient.batch_read (items : List ReadItem)
    (transport : List ReadItem → TransportOutcome) : BatchResponse :=
  match transport items with
  | TransportOutcome.failure e =>
      { state := -1, message := "请求失败: " ++ e, data := [] }
  | TransportOutcome.success resp => resp

/-- Claim C5: on any transport-level failure, `batch_read` returns a result
with negative state, a message describing the failure, and empty data; the
exception is never propagated (the function is total by construction and
always returns a `BatchResponse`). -/
theorem batch_read_transport_failure (items : List ReadItem) (e : String) :
    (DeviceClient.batch_read items (fun _ => TransportOutcome.failure e)).state < 0 ∧
    (DeviceClient.batch_read items (fun _ => TransportOutcome.failure e)).message
      = "请求失败: " ++ e ∧
    (DeviceClient.batch_read items (fun _ => TransportOutcome.failure e)).data = [] := by
  refine ⟨?_, rfl, rfl⟩
  simp [DeviceClient.batch_read]

/-- Claim C7: assuming the gateway honours its response contract (state 0
responses carry one entry per requested item; negative-state responses carry
no entries), the result of `batch_read` has exactly one data entry per
submitted item when its state is 0, and empty data when its state is
negative.  The transport-failure branch satisfies this unconditionally,
since `batch_read` builds `state = -1, data = []` itself. -/
theorem batch_read_length_invariant (items : List ReadItem)
    (transport : List ReadItem → TransportOutcome)
    (hgw : ∀ resp, transport items = TransportOutcome.success resp →
      (resp.state = 0 → resp.data.length = items.length) ∧
      (resp.state < 0 → resp.data = [])) :
    ((DeviceClient.batch_read items transport).state = 0 →
      (DeviceClient.batch_read items transport).data.length = items.length) ∧
    ((DeviceClient.batch_read items transport).state < 0 →
      (DeviceClient.batch_read items transport).data = []) := by
  unfold DeviceClient.batch_read
  cases h : transport items with
  | failure e => exact ⟨fun h0 => by simp at h0, fun _ => rfl⟩
  | success resp => exact hgw resp h

/-- Witness for C7 at a concrete batch of two items and a conforming
two-entry gateway response. -/
theorem batch_read_length_invariant_witness :
    ((DeviceClient.batch_read
        [{ name := "温度", channel_id := 3, addr := 100, type := "int16" },
         { name := "压力", channel_id := 3, addr := 200, type := "float32" }]
        (fun _ => TransportOutcome.success
          { state := 0, message := "批量读取完成",
            data := [{ name := "温度", success := true, value := JVal.num 256 },
                     { name := "压力", success := false, error := "超时" }] })).state = 0 →
      (DeviceClient.batch_read
        [{ name := "温度", channel_id := 3, addr := 100, type := "int16" },
         { name := "压力", channel_id := 3, addr := 200, type := "float32" }]
        (fun _ => TransportOutcome.success
          { state := 0, message := "批量读取完成",
            data := [{ name := "温度", success := true, value := JVal.num 256 },
                     { name := "压力", success := false, error := "超时" }] })).data.length = 2) ∧
    ((DeviceClient.batch_read
        [{ name := "温度", channel_id := 3, addr := 100, type := "int16" },
         { name := "压力", channel_id := 3, addr := 200, type := "float32" }]
        (fun _ => TransportOutcome.success
          { state := 0, message := "批量读取完成",
            data := [{ name := "温度", success := true, value := JVal.num 256 },
                     { name := "压力", success := false, error := "超时" }] })).state < 0 →
      (DeviceClient.batch_read
        [{ name := "温度", channel_id := 3, addr := 100, type := "int16" },
         { name := "压力", channel_id := 3, addr := 200, type := "float32" }]
        (fun _ => TransportOutcome.success
          { state := 0, message := "批量读取完成",
            data := [{ name := "温度", success := true, value := JVal.num 256 },
                     { name := "压力", success := false, error := "超时" }] })).data = []) :=
  batch_read_length_invariant _ _ (by intro resp h; cases h; exact ⟨fun _ => rfl, by decide⟩)

/- ========================================================================
   Claim C6: where scaling happens.  In the source, `batch_read` returns the
   parsed gateway body verbatim; the multiplication `raw_value * scale` is
   performed by the caller, in `demo_data_processing`, after `batch_read`
   has returned.
   ======================================================================== -/

/-- The per-item computation of `demo_data_processing`: for a successful
item, find its configuration row by name (Python's
`next(c for c in items_config if c["name"] == item["name"])`) and compute
`scaled_value = raw_value * config["scale"]`.  `none` covers the items the
demo skips (non-success) and the cases where Python would raise
(`StopIteration` on no matching config, or a non-numeric raw value). -/
def demoScaledValue (items_config : List ReadItem) (item : RespItem) : Option ℚ :=
  if item.success then
    match items_config.find? (fun c => c.name == item.name), item.value with
    | some config, JVal.num raw => some (raw * config.scale)
    | _, _ => none
  else none

/-- The temperature row of `items_config` in `demo_data_processing`. -/
def tempConfig : ReadItem :=
  { name := "温度", channel_id := 3, addr := 100, type := "int16",
    scale := 1/10, unit := "°C" }

/-- A gateway per-item success entry with raw value 256 for that row. -/
def tempRespItem : RespItem := { name := "温度", success := true, value := JVal.num 256 }

/-- A gateway response carrying only that entry. -/
def tempResponse : BatchResponse :=
  { state := 0, message := "批量读取完成", data := [tempRespItem] }

/-- Claim C6 counterexample: for the temperature item (scale 0.1) and a
gateway raw value of 256, the value carried in the result returned by
`batch_read` is the raw 256, which differs from the scaled value
256 * 0.1; so scaling is not performed inside the engine. -/
theorem batch_read_value_unscaled :
    ((DeviceClient.batch_read [tempConfig]
        (fun _ => TransportOutcome.success tempResponse)).data.map RespItem.value
      = [JVal.num 256]) ∧
    JVal.num 256 ≠ JVal.num (256 * tempConfig.scale) := by
  refine ⟨rfl, ?_⟩
  intro h
  injection h with h'
  norm_num [tempConfig] at h'

/-- Claim C6 amended: `batch_read` returns the gateway body unchanged on
transport success (so each item's value reaches the caller unscaled), and
the scaling `raw * scale` is applied by the caller in
`demo_data_processing`, after decode and only for numeric values of
successful items. -/
theorem batch_read_passthrough_caller_scales
    (items : List ReadItem) (resp : BatchResponse)
    (items_config : List ReadItem) (item : RespItem) (config : ReadItem) (raw : ℚ)
    (hsucc : item.success = true)
    (hfind : items_config.find? (fun c => c.name == item.name) = some config)
    (hval : item.value = JVal.num raw) :
    DeviceClient.batch_read items (fun _ => TransportOutcome.success resp) = resp ∧
    demoScaledValue items_config item = some (raw * config.scale) := by
  refine ⟨rfl, ?_⟩
  simp [demoScaledValue, hsucc, hfind, hval]

/-- Witness for the amended C6 at the temperature item with raw value 256. -/
theorem batch_read_passthrough_caller_scales_witness :
    DeviceClient.batch_read [tempConfig] (fun _ => TransportOutcome.success tempResponse)
      = tempResponse ∧
    demoScaledValue [tempConfig] tempRespItem = some (256 * tempConfig.scale) :=
  batch_read_passthrough_caller_scales [tempConfig] tempResponse [tempConfig]
    tempRespItem tempConfig 256 rfl rfl rfl

/- ========================================================================
   Claim C8: the monitor loop, from `RealtimeMonitor.start`.  The loop body
   is strictly sequential: one `batch_read` call, then the result is
   printed, then `time.sleep(self.interval)`.  Logical time is modelled
   explicitly: `procTime k` is the duration of cycle k's read-and-process
   phase, and the next cycle starts `interval` after that phase ends,
   because the sleep is placed after processing.
   ======================================================================== -/

/-- One `batch_read` call per loop iteration of `RealtimeMonitor.start`:
running `cycles` iterations produces exactly one result snapshot per cycle
(`transport k` is the network's behaviour during cycle k). -/
def RealtimeMonitor.run (items : List ReadItem)
    (transport : Nat → List ReadItem → TransportOutcome) (cycles : Nat) :
    List BatchResponse :=
  (List.range cycles).map (fun k => DeviceClient.batch_read items (transport k))

/-- Start time of cycle k in the logical-time model of the loop: cycle k+1
begins `procTime k + interval` after cycle k began, because the loop body
runs the read-and-process phase (duration `procTime k`) and then sleeps for
`interval`. -/
def RealtimeMonitor.cycleStart (procTime : Nat → Nat) (interval : Nat) : Nat → Nat
  | 0 => 0
  | k + 1 => RealtimeMonitor.cycleStart procTime interval k + procTime k + interval

/-- End of cycle k's read-and-process phase. -/
def RealtimeMonitor.cycleEnd (procTime : Nat → Nat) (interval : Nat) (k : Nat) : Nat :=
  RealtimeMonitor.cycleStart procTime interval k + procTime k

/-- Claim C8: every monitor run performs exactly one batch read per cycle,
each cycle's sleep of `interval` is measured from the end of that cycle's
processing (the next cycle starts exactly `interval` after the previous
processing ends), and the read phases of distinct cycles never overlap: a
later cycle starts no earlier than any earlier cycle's processing ends. -/
theorem monitor_serialized_cycles (items : List ReadItem)
    (transport : Nat → List ReadItem → TransportOutcome) (cycles : Nat)
    (p : Nat → Nat) (interval : Nat) (k j : Nat) (hkj : k < j) :
    (RealtimeMonitor.run items transport cycles).length = cycles ∧
    RealtimeMonitor.cycleStart p interval (k + 1)
      = RealtimeMonitor.cycleEnd p interval k + interval ∧
    RealtimeMonitor.cycleEnd p interval k ≤ RealtimeMonitor.cycleStart p interval j := by
  refine ⟨by simp [RealtimeMonitor.run], rfl, ?_⟩
  induction j with
  | zero => exact absurd hkj (Nat.not_lt_zero k)
  | succ n ih =>
    rcases Nat.lt_succ_iff_lt_or_eq.mp hkj with h | h
    · have h2 : RealtimeMonitor.cycleStart p interval (n + 1)
          = RealtimeMonitor.cycleEnd p interval n + interval := rfl
      have h3 := ih h
      have h4 : RealtimeMonitor.cycleStart p interval n
          ≤ RealtimeMonitor.cycleEnd p interval n := Nat.le_add_right _ _
      omega
    · subst h
      have h1 : RealtimeMonitor.cycleStart p interval (k + 1)
          = RealtimeMonitor.cycleEnd p interval k + interval := rfl
      omega

/-- Witness for C8: three cycles against an always-failing transport, with
processing time 5 and interval 2 for the timing facts at cycles 0 and 1. -/
theorem monitor_serialized_cycles_witness :
    (RealtimeMonitor.run [] (fun _ _ => TransportOutcome.failure "超时") 3).length = 3 ∧
    RealtimeMonitor.cycleStart (fun _ => 5) 2 1
      = RealtimeMonitor.cycleEnd (fun _ => 5) 2 0 + 2 ∧
    RealtimeMonitor.cycleEnd (fun _ => 5) 2 0 ≤ RealtimeMonitor.cycleStart (fun _ => 5) 2 1 :=
  monitor_serialized_cycles [] (fun _ _ => TransportOutcome.failure "超时") 3
    (fun _ => 5) 2 0 1 (by decide)

/- ========================================================================
   Claim C9: `DeviceClient.batch_read_dict`.  The Python dict comprehension
   `{item["name"]: item.get("value") for item in data if item.get("success")}`
   is modelled as an association list built by insert-or-overwrite (Python
   dicts keep insertion order and a later duplicate key overwrites the
   earlier entry in place).
   ======================================================================== -/

/-- Python-dict assignment `d[k] = v` on an ordered association list:
overwrite the existing entry for `k` in place if present, append otherwise. -/
def dictInsert (d : List (String × JVal)) (k : String) (v : JVal) :
    List (String × JVal) :=
  if d.any (fun p => p.1 == k) then
    d.map (fun p => if p.1 == k then (k, v) else p)
  else d ++ [(k, v)]

/-- `DeviceClient.batch_read_dict`: runs `batch_read` and folds the
successful data entries into a `{name: value}` dict. -/
def DeviceClient.batch_read_dict (items : List ReadItem)
    (transport : List ReadItem → TransportOutcome) : List (String × JVal) :=
  ((DeviceClient.batch_read items transport).data.filter
      (fun i => i.success)).foldl
    (fun d i => dictInsert d i.name i.value) []

/-- Every pair of `dictInsert d k v` is an old pair of `d` or the new pair. -/
lemma mem_dictInsert (d : List (String × JVal)) (k : String) (v : JVal)
    (p : String × JVal) (hp : p ∈ dictInsert d k v) : p ∈ d ∨ p = (k, v) := by
  unfold dictInsert at hp
  by_cases h : d.any (fun q => q.1 == k)
  · rw [if_pos h] at hp
    rcases List.mem_map.mp hp with ⟨q, hq, hqp⟩
    by_cases hk : q.1 = k
    · right; rw [← hqp]; simp [hk]
    · left
      have hkeep : (if q.1 == k then (k, v) else q) = q := by simp [hk]
      rw [← hqp, hkeep]; exact hq
  · rw [if_neg h] at hp
    rcases List.mem_append.mp hp with hp | hp
    · exact Or.inl hp
    · exact Or.inr (List.mem_singleton.mp hp)

/-- A key is present in `dictInsert d k v` iff it was present in `d` or it is
the inserted key `k`. -/
lemma exists_mem_dictInsert (d : List (String × JVal)) (k x : String) (v : JVal) :
    (∃ w, (x, w) ∈ dictInsert d k v) ↔ (∃ w, (x, w) ∈ d) ∨ x = k := by
  constructor
  · rintro ⟨w, hw⟩
    rcases mem_dictInsert d k v (x, w) hw with h | h
    · exact Or.inl ⟨w, h⟩
    · exact Or.inr (congrArg Prod.fst h)
  · rintro (⟨w, hw⟩ | rfl)
    · unfold dictInsert
      by_cases h : d.any (fun q => q.1 == k)
      · rw [if_pos h]
        by_cases hxk : x = k
        · subst hxk
          exact ⟨v, List.mem_map.mpr ⟨(x, w), hw, by simp⟩⟩
        · exact ⟨w, List.mem_map.mpr ⟨(x, w), hw, by simp [hxk]⟩⟩
      · rw [if_neg h]
        exact ⟨w, List.mem_append.mpr (Or.inl hw)⟩
    · unfold dictInsert
      by_cases h : d.any (fun q => q.1 == x)
      · rw [if_pos h]
        rcases List.any_eq_true.mp h with ⟨q, hq, hqx⟩
        refine ⟨v, List.mem_map.mpr ⟨q, hq, ?_⟩⟩
        rw [if_pos hqx]
      · rw [if_neg h]
        exact ⟨v, List.mem_append.mpr (Or.inr (List.mem_singleton.mpr rfl))⟩

/-- Every pair of the dict built by the fold comes from the accumulator or
from some folded response item. -/
lemma mem_foldl_dictInsert (l : List RespItem) :
    ∀ (acc : List (String × JVal)) (p : String × JVal),
      p ∈ l.foldl (fun d i => dictInsert d i.name i.value) acc →
      p ∈ acc ∨ ∃ i ∈ l, p = (i.name, i.value) := by
  induction l with
  | nil =>
    intro acc p hp
    simp only [List.foldl_nil] at hp
    exact Or.inl hp
  | cons i l ih =>
    intro acc p hp
    simp only [List.foldl_cons] at hp
    rcases ih _ _ hp with h | ⟨j, hj, hpj⟩
    · rcases mem_dictInsert _ _ _ _ h with h2 | h2
      · exact Or.inl h2
      · exact Or.inr ⟨i, List.mem_cons_self i l, h2⟩
    · exact Or.inr ⟨j, List.mem_cons_of_mem i hj, hpj⟩

/-- A key is present in the dict built by the fold iff it is present in the
accumulator or is the name of some folded response item. -/
lemma exists_mem_foldl_dictInsert (l : List RespItem) :
    ∀ (acc : List (String × JVal)) (x : String),
      (∃ w, (x, w) ∈ l.foldl (fun d i => dictInsert d i.name i.value) acc) ↔
      (∃ w, (x, w) ∈ acc) ∨ ∃ i ∈ l, i.name = x := by
  induction l with
  | nil => intro acc x; simp
  | cons i l ih =>
    intro acc x
    simp only [List.foldl_cons]
    rw [ih]
    rw [exists_mem_dictInsert]
    simp only [List.mem_cons]
    constructor
    · rintro ((h | rfl) | ⟨j, hj, hjx⟩)
      · exact Or.inl h
      · exact Or.inr ⟨i, Or.inl rfl, rfl⟩
      · exact Or.inr ⟨j, Or.inr hj, hjx⟩
    · rintro (h | ⟨j, (rfl | hj), hjx⟩)
      · exact Or.inl (Or.inl h)
      · exact Or.inl (Or.inr hjx.symm)
      · exact Or.inr ⟨j, hj, hjx⟩

/-- Claim C9: the dict returned by `batch_read_dict` has exactly the names of
the successful response items as keys; every entry it carries is the
name-value pair of some successful response item (failed items contribute
nothing); and on a transport-level failure the dict is empty. -/
theorem batch_read_dict_spec (items : List ReadItem)
    (transport : List ReadItem → TransportOutcome) :
    (∀ x : String,
      (∃ w, (x, w) ∈ DeviceClient.batch_read_dict items transport) ↔
      (∃ it ∈ (DeviceClient.batch_read items transport).data,
        it.success = true ∧ it.name = x)) ∧
    (∀ (x : String) (w : JVal),
      (x, w) ∈ DeviceClient.batch_read_dict items transport →
      ∃ it ∈ (DeviceClient.batch_read items transport).data,
        it.success = true ∧ it.name = x ∧ it.value = w) ∧
    (∀ e : String,
      DeviceClient.batch_read_dict items (fun _ => TransportOutcome.failure e) = []) := by
  refine ⟨?_, ?_, fun e => rfl⟩
  · intro x
    unfold DeviceClient.batch_read_dict
    rw [exists_mem_foldl_dictInsert]
    constructor
    · rintro (⟨w, hw⟩ | ⟨i, hi, hix⟩)
      · exact absurd hw (List.not_mem_nil _)
      · rw [List.mem_filter] at hi
        exact ⟨i, hi.1, hi.2, hix⟩
    · rintro ⟨i, hi, hsucc, hix⟩
      exact Or.inr ⟨i, List.mem_filter.mpr ⟨hi, hsucc⟩, hix⟩
  · intro x w hw
    unfold DeviceClient.batch_read_dict at hw
    rcases mem_foldl_dictInsert _ _ _ hw with h | ⟨i, hi, hpi⟩
    · exact absurd h (List.not_mem_nil _)
    · rw [List.mem_filter] at hi
      have hx : x = i.name := congrArg Prod.fst hpi
      have hv : w = i.value := congrArg Prod.snd hpi
      exact ⟨i, hi.1, hi.2, hx.symm, hv.symm⟩

/-- Witness for C9: a concrete response with one successful and one failed
item; the pair ("a", true) of the dict is traced back to the successful
response item. -/
theorem batch_read_dict_spec_witness :
    ∃ it ∈ (DeviceClient.batch_read []
      (fun _ => TransportOutcome.success
        { state := 0, message := "批量读取完成",
          data := [{ name := "a", success := true, value := JVal.bool true },
                   { name := "b", success := false, error := "通道不存在" }] })).data,
      it.success = true ∧ it.name = "a" ∧ it.value = JVal.bool true :=
  (batch_read_dict_spec []
    (fun _ => TransportOutcome.success
      { state := 0, message := "批量读取完成",
        data := [{ name := "a", success := true, value := JVal.bool true },
                 { name := "b", success := false, error := "通道不存在" }] })).2.1
    "a" (JVal.bool true) (by decide)

/- ========================================================================
   Part 3: the single-item client, from `examples/modbus_types_demo.py`.
   The POST to `/device/execute` is modelled by an `HttpOutcome`: `exn e`
   stands for any exception raised inside the `try` block (connection
   errors, timeouts, and also `KeyError` from a missing JSON field, since
   the bare `except Exception` catches them all); `ok status body` stands
   for a completed HTTP exchange with the given status code and parsed
   JSON body.
   ======================================================================== -/

/-- Parsed body of the execute endpoint:
`{"code": int, "msg": string, "data": {...}}`, with `data` kept as a JSON
object so that a missing "value" key is representable. -/
structure ExecResponse where
  code : Int
  msg : String
  data : List (String × JVal)
deriving DecidableEq, Repr

/-- Outcome of the HTTP round trip performed inside `read_typed`. -/
inductive HttpOutcome where
  | exn (err : String)
  | ok (status : Nat) (body : ExecResponse)
deriving DecidableEq, Repr

/-- Key lookup in a JSON object; `none` models the `KeyError` Python's
`result["data"]["value"]` would raise on a missing key (caught by the
enclosing `except`, so the function falls through to `return None`). -/
def jsonGet (obj : List (String × JVal)) (k : String) : Option JVal :=
  (obj.find? (fun p => p.1 == k)).map Prod.snd

/-- `ModbusClient.read_typed`: returns `result["data"]["value"]` when the
HTTP status is 200 and the body's `code` is 0; in every other case (non-200
status, nonzero code, exception, or a missing value field) it prints a
diagnostic and returns `None`.  The channel, address and type only shape
the request, which the `http` outcome already accounts for. -/
def ModbusClient.read_typed (channel : Int) (addr : Nat) (data_type : String)
    (http : HttpOutcome) : Option JVal :=
  match channel, addr, data_type, http with
  | _, _, _, HttpOutcome.exn _ => none
  | _, _, _, HttpOutcome.ok status body =>
    if status = 200 then
      if body.code = 0 then jsonGet body.data "value"
      else none
    else none

/-- Claim C10: `read_typed` never lets an exception reach the caller (it is
total and returns `none` on any exception), returns `none` on a non-200
status or a nonzero response code, and returns the response's value field
exactly when the status is 200, the code is 0, and the field is present. -/
theorem read_typed_spec (channel : Int) (addr : Nat) (data_type : String) :
    (∀ e, ModbusClient.read_typed channel addr data_type (HttpOutcome.exn e) = none) ∧
    (∀ status body, status ≠ 200 →
      ModbusClient.read_typed channel addr data_type (HttpOutcome.ok status body) = none) ∧
    (∀ body, body.code ≠ 0 →
      ModbusClient.read_typed channel addr data_type (HttpOutcome.ok 200 body) = none) ∧
    (∀ body v, body.code = 0 → jsonGet body.data "value" = some v →
      ModbusClient.read_typed channel addr data_type (HttpOutcome.ok 200 body) = some v) := by
  refine ⟨fun e => rfl, ?_, ?_, ?_⟩
  · intro status body h
    simp [ModbusClient.read_typed, h]
  · intro body h
    simp [ModbusClient.read_typed, h]
  · intro body v h hv
    simp [ModbusClient.read_typed, h, hv]

/-- Witness for C10: a concrete 200/code-0 response whose value field is 42
is returned, and a concrete 500 response yields none. -/
theorem read_typed_spec_witness :
    ModbusClient.read_typed 1 100 "int16"
      (HttpOutcome.ok 200
        { code := 0, msg := "成功", data := [("value", JVal.num 42)] })
      = some (JVal.num 42) ∧
    ModbusClient.read_typed 1 100 "int16"
      (HttpOutcome.ok 500 { code := 0, msg := "", data := [] }) = none :=
  ⟨(read_typed_spec 1 100 "int16").2.2.2
      { code := 0, msg := "成功", data := [("value", JVal.num 42)] }
      (JVal.num 42) rfl rfl,
   (read_typed_spec 1 100 "int16").2.1 500
      { code := 0, msg := "", data := [] } (by decide)⟩
